import Mathlib

/-!
Shallow embedding of `src/server/links/scitt/create_hashed_signed_statement.py`,
the SCITT hashed-signed-statement construction pipeline of the vcon-server
repository.  Byte strings are modelled as lists of naturals, the protected
header as an ordered association list from integer COSE labels to a small
CBOR-like value type, and Python exceptions as an `Except` error type.  The
ECDSA signature computed by `pycose` at `statement.encode([None])` is
randomized (library-default signing), so the model returns the deterministic
content of the statement (protected header, detached payload, signing key
dictionary); the signature bytes and the final CBOR serialization are
abstracted.
-/

/-- Byte strings (Python `bytes`) are modelled as lists of naturals, one per byte. -/
abbrev Bytes := List Nat

/-- ASCII bytes of a short literal, used for the Python bytes literal of the default kid. -/
def asciiBytes (s : String) : Bytes := s.data.map Char.toNat

/-- CWT header label, source line 24. -/
def HEADER_LABEL_CWT : Int := 13

/-- CWT issuer claim key, source line 28. -/
def HEADER_LABEL_CWT_ISSUER : Int := 1

/-- CWT subject claim key, source line 29. -/
def HEADER_LABEL_CWT_SUBJECT : Int := 2

/-- CWT confirmation claim key, source line 33. -/
def HEADER_LABEL_CWT_CNF : Int := 8

/-- Key of the embedded COSE key inside the confirmation claim, source line 34. -/
def HEADER_LABEL_CNF_COSE_KEY : Int := 1

/-- Numeric code of SHA-256 as a COSE hash algorithm, source line 35. -/
def HEADER_LABEL_COSE_ALG_SHA256 : Int := -16

/-- Numeric code of SHA-384, source line 36. -/
def HEADER_LABEL_COSE_ALG_SHA384 : Int := -43

/-- Numeric code of SHA-512, source line 37. -/
def HEADER_LABEL_COSE_ALG_SHA512 : Int := -44

/-- Numeric code of SHA-512/256, source line 38 (defined but reachable from no match branch). -/
def HEADER_LABEL_COSE_ALG_SHA512_256 : Int := -17

/-- Hash-envelope label of the payload hash algorithm, source line 44. -/
def HEADER_LABEL_PAYLOAD_HASH_ALGORITHM : Int := -6800

/-- Hash-envelope label of the payload location hint, source line 45. -/
def HEADER_LABEL_PAYLOAD_LOCATION : Int := -6801

/-- Hash-envelope label of the pre-image content type, source line 46. -/
def HEADER_LABEL_PAYLOAD_PRE_CONTENT_TYPE : Int := -6802

/-- Label of the tstr:tstr metadata map, source line 49. -/
def HEADER_LABEL_META_MAP : Int := -6804

/-- COSE protected-header label of the signature algorithm (`pycose.headers.Algorithm`). -/
def Algorithm : Int := 1

/-- COSE protected-header label of the key identifier (`pycose.headers.KID`). -/
def KID : Int := 4

/-- COSE identifier of ECDSA with SHA-256 (`pycose.algorithms.Es256`). -/
def Es256 : Int := -7

/-- COSE key-parameter label of the key type (`pycose.keys.keyparam.KpKty`). -/
def KpKty : Int := 1

/-- COSE key-type identifier of EC2 keys (`pycose.keys.keytype.KtyEC2`). -/
def KtyEC2 : Int := 2

/-- COSE key-parameter label of the curve (`pycose.keys.keyparam.EC2KpCurve`). -/
def EC2KpCurve : Int := -1

/-- COSE curve identifier of P-256 (`pycose.keys.curves.P256`). -/
def P256 : Int := 1

/-- COSE key-parameter label of the x coordinate (`pycose.keys.keyparam.EC2KpX`). -/
def EC2KpX : Int := -2

/-- COSE key-parameter label of the y coordinate (`pycose.keys.keyparam.EC2KpY`). -/
def EC2KpY : Int := -3

/-- COSE key-parameter label of the private scalar (`pycose.keys.keyparam.EC2KpD`). -/
def EC2KpD : Int := -4

/-- COSE key-parameter label of the key operations (`pycose.keys.keyparam.KpKeyOps`). -/
def KpKeyOps : Int := 4

/-- COSE key-operation identifier of signing (`pycose.keys.keyops.SignOp`). -/
def SignOp : Int := 1

/-- COSE key-operation identifier of verifying (`pycose.keys.keyops.VerifyOp`). -/
def VerifyOp : Int := 2

/-- Values stored in the protected-header mapping and in the COSE key dictionary:
Python `None`, integers, strings, byte strings, nested integer-keyed maps,
string-to-string maps (the metadata map) and arrays (the key-operations list). -/
inductive HVal where
  | null
  | int (n : Int)
  | str (s : String)
  | bytes (b : Bytes)
  | map (entries : List (Int × HVal))
  | strMap (entries : List (String × String))
  | arr (xs : List HVal)

/-- Python optional string arguments as header values: `None` stays `None` (null). -/
def optStr : Option String → HVal
  | none => HVal.null
  | some s => HVal.str s

/-- Python optional dict argument (the metadata map) as a header value. -/
def optMetaMap : Option (List (String × String)) → HVal
  | none => HVal.null
  | some m => HVal.strMap m

/-- Model of an `ecdsa.SigningKey`: `to_string` is the private scalar bytes
(`signing_key.to_string()`), `verifying_key_to_string` is the public point as the
x and y coordinates concatenated (`signing_key.verifying_key.to_string()`). -/
structure SigningKey where
  to_string : Bytes
  verifying_key_to_string : Bytes

/-- Python exceptions the modelled code can raise.  `unboundLocalError` is the
runtime error raised when a function-local variable is read before assignment;
`unsupportedAlgorithmError` is the explicit error the design document calls for
(no code path of the source produces it). -/
inductive PyError where
  | unboundLocalError (name : String)
  | unsupportedAlgorithmError (alg : String)
deriving DecidableEq

/-- Deterministic content of the `pycose` Sign1 message built at source lines
130-143: the protected header, the detached payload passed verbatim, and the
COSE key dictionary attached for signing.  The randomized ECDSA signature and
the CBOR serialization performed by `statement.encode([None])` are abstracted. -/
structure Sign1Message where
  phdr : List (Int × HVal)
  payload : Option Bytes
  key : List (Int × HVal)

/-- Source lines 99-105: the `match payload_hash_alg` statement.  The match has
no default case, so an algorithm outside the three literals falls through and
leaves the Python local `payload_hash_alg_label` unbound, modelled as `none`. -/
def payload_hash_alg_match (payload_hash_alg : String) : Option Int :=
  match payload_hash_alg with
  | "SHA-256" => some HEADER_LABEL_COSE_ALG_SHA256
  | "SHA-384" => some HEADER_LABEL_COSE_ALG_SHA384
  | "SHA-512" => some HEADER_LABEL_COSE_ALG_SHA512
  | _ => none

/-- Python default of the `kid` parameter, source line 75: the bytes literal of testkey. -/
def KID_DEFAULT : Bytes := asciiBytes "testkey"

/-- Python default of the `payload_hash_alg` parameter, source line 78. -/
def PAYLOAD_HASH_ALG_DEFAULT : String := "SHA-256"

/-- Source lines 71-149, `create_hashed_signed_statement`.  Parameters appear in
source order; the Python defaults are `kid = KID_DEFAULT`, `meta_map = none`,
`payload = none`, `payload_hash_alg = PAYLOAD_HASH_ALG_DEFAULT`,
`payload_location = none`, `pre_image_content_type = none`.  Reading the
unbound `payload_hash_alg_label` at line 125 after an unmatched algorithm
raises `UnboundLocalError`, modelled as the `Except.error` branch. -/
def create_hashed_signed_statement
    (issuer : String) (signing_key : SigningKey) (subject : String)
    (kid : Bytes) (meta_map : Option (List (String × String)))
    (payload : Option Bytes) (payload_hash_alg : String)
    (payload_location : Option String) (pre_image_content_type : Option String) :
    Except PyError Sign1Message :=
  let xy_parts := signing_key.verifying_key_to_string
  let x_part := xy_parts.take 32
  let y_part := (xy_parts.drop 32).take 32
  match payload_hash_alg_match payload_hash_alg with
  | none => Except.error (PyError.unboundLocalError "payload_hash_alg_label")
  | some payload_hash_alg_label =>
    Except.ok
      { phdr := [
          (Algorithm, HVal.int Es256),
          (KID, HVal.bytes kid),
          (HEADER_LABEL_PAYLOAD_PRE_CONTENT_TYPE, optStr pre_image_content_type),
          (HEADER_LABEL_CWT, HVal.map [
            (HEADER_LABEL_CWT_ISSUER, HVal.str issuer),
            (HEADER_LABEL_CWT_SUBJECT, HVal.str subject),
            (HEADER_LABEL_CWT_CNF, HVal.map [
              (HEADER_LABEL_CNF_COSE_KEY, HVal.map [
                (KpKty, HVal.int KtyEC2),
                (EC2KpCurve, HVal.int P256),
                (EC2KpX, HVal.bytes x_part),
                (EC2KpY, HVal.bytes y_part)])])]),
          (HEADER_LABEL_PAYLOAD_HASH_ALGORITHM, HVal.int payload_hash_alg_label),
          (HEADER_LABEL_PAYLOAD_LOCATION, optStr payload_location),
          (HEADER_LABEL_META_MAP, optMetaMap meta_map)],
        payload := payload,
        key := [
          (KpKty, HVal.int KtyEC2),
          (EC2KpCurve, HVal.int P256),
          (KpKeyOps, HVal.arr [HVal.int SignOp, HVal.int VerifyOp]),
          (EC2KpD, HVal.bytes signing_key.to_string),
          (EC2KpX, HVal.bytes x_part),
          (EC2KpY, HVal.bytes y_part)] }

/-- Observation: the value a protected-header label is mapped to, if present. -/
def phdrAt (s : Sign1Message) (label : Int) : Option HVal :=
  List.lookup label s.phdr

/-- Observation: the entries of the embedded COSE key of the confirmation claim,
reached through header label 13, then CWT key 8, then confirmation key 1. -/
def cnfCoseKey (s : Sign1Message) : Option (List (Int × HVal)) :=
  match phdrAt s HEADER_LABEL_CWT with
  | some (HVal.map cwt) =>
    match List.lookup HEADER_LABEL_CWT_CNF cwt with
    | some (HVal.map cnf) =>
      match List.lookup HEADER_LABEL_CNF_COSE_KEY cnf with
      | some (HVal.map k) => some k
      | _ => none
    | _ => none
  | _ => none

/-- Observation: the byte string a COSE key-parameter label is mapped to. -/
def coseKeyBytes (k : List (Int × HVal)) (label : Int) : Option Bytes :=
  match List.lookup label k with
  | some (HVal.bytes b) => some b
  | _ => none

/-- Observation: the x coordinate stored in the confirmation claim. -/
def cnfX (s : Sign1Message) : Option Bytes :=
  (cnfCoseKey s).bind (fun k => coseKeyBytes k EC2KpX)

/-- Observation: the y coordinate stored in the confirmation claim. -/
def cnfY (s : Sign1Message) : Option Bytes :=
  (cnfCoseKey s).bind (fun k => coseKeyBytes k EC2KpY)

/-- Source lines 250-251 of `main`: the output file is opened for writing only
after `create_hashed_signed_statement` has returned; a raised exception
propagates out of `main` before the `open`, leaving the file system unchanged.
The file system is modelled as an association list from file names to the
written statement content. -/
def write_output_file (output_file : String)
    (result : Except PyError Sign1Message)
    (fs : List (String × Sign1Message)) :
    Option PyError × List (String × Sign1Message) :=
  match result with
  | Except.error e => (some e, fs)
  | Except.ok signed_statement => (none, (output_file, signed_statement) :: fs)

/-- Source lines 234-251 of `main`: build the signed statement from the parsed
arguments (the payload is the SHA-256 digest of the payload file, the algorithm
is the literal SHA-256, the content type fills `pre_image_content_type`), then
write it to the output file. -/
def main_model (output_file content_type issuer : String) (kid : Bytes)
    (meta_map_dict : List (String × String)) (payload_hash : Bytes)
    (payload_location : Option String) (signing_key : SigningKey) (subject : String)
    (fs : List (String × Sign1Message)) :
    Option PyError × List (String × Sign1Message) :=
  write_output_file output_file
    (create_hashed_signed_statement issuer signing_key subject kid
      (some meta_map_dict) (some payload_hash) "SHA-256"
      payload_location (some content_type)) fs

/-- Concrete 64-byte public point signing key used to instantiate theorems. -/
def skTest : SigningKey :=
  { to_string := List.range 32, verifying_key_to_string := List.range 64 }

/-- Concrete signing key whose public point encoding is 48 bytes, as produced by
an ecdsa key on a curve with 24-byte coordinates. -/
def sk48 : SigningKey :=
  { to_string := List.range 24, verifying_key_to_string := List.range 48 }

/-- C1: the claim says an algorithm string outside SHA-256, SHA-384, SHA-512
makes `create_hashed_signed_statement` raise an explicit, exhaustive
`UnsupportedAlgorithmError`.  The source's match (lines 99-105) has no default
case: at the unsupported algorithm SHA-512/256 (whose label constant the source
even defines) the function instead leaves `payload_hash_alg_label` unbound and
raises `UnboundLocalError` when the protected header reads it at line 125 -- no
`UnsupportedAlgorithmError` is raised on any path. -/
theorem c1_unmatched_alg_raises_unbound_local_error :
    create_hashed_signed_statement "issuer" skTest "subject" KID_DEFAULT none
      none "SHA-512/256" none none
      = Except.error (PyError.unboundLocalError "payload_hash_alg_label") := rfl

/-- C2: for each supported algorithm string, the protected header maps key
-6800 to that algorithm's fixed numeric code: -16 for SHA-256, -43 for
SHA-384, -44 for SHA-512. -/
theorem c2_payload_hash_alg_label_codes (issuer subject : String)
    (sk : SigningKey) (kid : Bytes) (mm : Option (List (String × String)))
    (p : Option Bytes) (pl pict : Option String) :
    Except.map (fun s => phdrAt s HEADER_LABEL_PAYLOAD_HASH_ALGORITHM)
        (create_hashed_signed_statement issuer sk subject kid mm p "SHA-256" pl pict)
        = Except.ok (some (HVal.int (-16)))
    ∧ Except.map (fun s => phdrAt s HEADER_LABEL_PAYLOAD_HASH_ALGORITHM)
        (create_hashed_signed_statement issuer sk subject kid mm p "SHA-384" pl pict)
        = Except.ok (some (HVal.int (-43)))
    ∧ Except.map (fun s => phdrAt s HEADER_LABEL_PAYLOAD_HASH_ALGORITHM)
        (create_hashed_signed_statement issuer sk subject kid mm p "SHA-512" pl pict)
        = Except.ok (some (HVal.int (-44))) :=
  ⟨rfl, rfl, rfl⟩

/-- C3: every successful call of `create_hashed_signed_statement` (any
algorithm the match accepts) stores under protected-header label 13 a CWT claim
map with the issuer at key 1, the subject at key 2, and at key 8 a confirmation
claim whose key 1 is an embedded COSE key of type EC2 on curve P-256 whose x
and y coordinates are the two 32-byte slices of the public point derived from
the signing key. -/
theorem c3_cwt_claims_in_protected_header (issuer subject : String)
    (sk : SigningKey) (kid : Bytes) (mm : Option (List (String × String)))
    (p : Option Bytes) (pl pict : Option String) (alg : String) (label : Int)
    (h : payload_hash_alg_match alg = some label) :
    Except.map (fun s => phdrAt s HEADER_LABEL_CWT)
      (create_hashed_signed_statement issuer sk subject kid mm p alg pl pict)
      = Except.ok (some (HVal.map [
          (HEADER_LABEL_CWT_ISSUER, HVal.str issuer),
          (HEADER_LABEL_CWT_SUBJECT, HVal.str subject),
          (HEADER_LABEL_CWT_CNF, HVal.map [
            (HEADER_LABEL_CNF_COSE_KEY, HVal.map [
              (KpKty, HVal.int KtyEC2),
              (EC2KpCurve, HVal.int P256),
              (EC2KpX, HVal.bytes (sk.verifying_key_to_string.take 32)),
              (EC2KpY, HVal.bytes ((sk.verifying_key_to_string.drop 32).take 32))])])])) := by
  simp only [create_hashed_signed_statement, h]
  rfl

/-- Witness for C3 at a concrete call. -/
theorem c3_witness :
    Except.map (fun s => phdrAt s HEADER_LABEL_CWT)
      (create_hashed_signed_statement "iss" skTest "sub" KID_DEFAULT none none
        "SHA-256" none none)
      = Except.ok (some (HVal.map [
          (HEADER_LABEL_CWT_ISSUER, HVal.str "iss"),
          (HEADER_LABEL_CWT_SUBJECT, HVal.str "sub"),
          (HEADER_LABEL_CWT_CNF, HVal.map [
            (HEADER_LABEL_CNF_COSE_KEY, HVal.map [
              (KpKty, HVal.int KtyEC2),
              (EC2KpCurve, HVal.int P256),
              (EC2KpX, HVal.bytes (skTest.verifying_key_to_string.take 32)),
              (EC2KpY, HVal.bytes ((skTest.verifying_key_to_string.drop 32).take 32))])])])) :=
  c3_cwt_claims_in_protected_header "iss" "sub" skTest KID_DEFAULT none none
    none none "SHA-256" (-16) rfl

/-- C4 (amended): for a signing key whose derived public point is the 64-byte
P-256 encoding, the x and y coordinates placed in the confirmation claim are
each exactly 32 bytes.  The rejection half of the original claim is false, see
the counterexample: the function slices blindly and rejects nothing. -/
theorem c4_p256_coordinates_are_32_bytes (issuer subject : String)
    (sk : SigningKey) (kid : Bytes) (mm : Option (List (String × String)))
    (p : Option Bytes) (pl pict : Option String) (alg : String) (label : Int)
    (h64 : sk.verifying_key_to_string.length = 64)
    (h : payload_hash_alg_match alg = some label) :
    Except.map (fun s => ((cnfX s).map List.length, (cnfY s).map List.length))
      (create_hashed_signed_statement issuer sk subject kid mm p alg pl pict)
      = Except.ok (some 32, some 32) := by
  have hx : Except.map (fun s => ((cnfX s).map List.length, (cnfY s).map List.length))
      (create_hashed_signed_statement issuer sk subject kid mm p alg pl pict)
      = Except.ok (some ((sk.verifying_key_to_string.take 32).length),
          some (((sk.verifying_key_to_string.drop 32).take 32).length)) := by
    simp only [create_hashed_signed_statement, h]
    rfl
  rw [hx]
  simp [List.length_take, List.length_drop, h64]

/-- Witness for C4 at a concrete 64-byte-point key. -/
theorem c4_witness :
    Except.map (fun s => ((cnfX s).map List.length, (cnfY s).map List.length))
      (create_hashed_signed_statement "iss" skTest "sub" KID_DEFAULT none none
        "SHA-256" none none)
      = Except.ok (some 32, some 32) :=
  c4_p256_coordinates_are_32_bytes "iss" "sub" skTest KID_DEFAULT none none
    none none "SHA-256" (-16) rfl rfl

/-- Counterexample to C4 as stated: a key whose public point encoding is 48
bytes (coordinates not 32 bytes) is NOT rejected -- the call succeeds with
`Except.ok` and silently stores a 32-byte x slice and a truncated 16-byte y
slice in the confirmation claim. -/
theorem c4_counterexample :
    Except.map (fun s => ((cnfX s).map List.length, (cnfY s).map List.length))
      (create_hashed_signed_statement "iss" sk48 "sub" KID_DEFAULT none none
        "SHA-256" none none)
      = Except.ok (some 32, some 16) := rfl

/-- C5: `main` writes the output file only after
`create_hashed_signed_statement` has returned; if construction or signing
raised an error, the exception propagates and the file system is left
untouched -- no truncated or unsigned output file appears. -/
theorem c5_no_output_file_on_failure (output_file : String)
    (result : Except PyError Sign1Message)
    (fs : List (String × Sign1Message)) (e : PyError)
    (h : result = Except.error e) :
    write_output_file output_file result fs = (some e, fs) := by
  subst h
  rfl

/-- Witness for C5 at a concrete failed result. -/
theorem c5_witness :
    write_output_file "signed-statement.cbor"
      (Except.error (PyError.unboundLocalError "payload_hash_alg_label")) []
      = (some (PyError.unboundLocalError "payload_hash_alg_label"), []) :=
  c5_no_output_file_on_failure "signed-statement.cbor"
    (Except.error (PyError.unboundLocalError "payload_hash_alg_label")) []
    (PyError.unboundLocalError "payload_hash_alg_label") rfl

/-- C6: with the kid argument left at its Python default, the protected
header's key-identifier field (COSE label of KID) is the placeholder bytes of
the string testkey. -/
theorem c6_default_kid_is_testkey (issuer subject : String) (sk : SigningKey)
    (mm : Option (List (String × String))) (p : Option Bytes)
    (pl pict : Option String) (alg : String) (label : Int)
    (h : payload_hash_alg_match alg = some label) :
    Except.map (fun s => phdrAt s KID)
      (create_hashed_signed_statement issuer sk subject KID_DEFAULT mm p alg pl pict)
      = Except.ok (some (HVal.bytes (asciiBytes "testkey"))) := by
  simp only [create_hashed_signed_statement, h]
  rfl

/-- Witness for C6 at a concrete call. -/
theorem c6_witness :
    Except.map (fun s => phdrAt s KID)
      (create_hashed_signed_statement "iss" skTest "sub" KID_DEFAULT none none
        "SHA-256" none none)
      = Except.ok (some (HVal.bytes (asciiBytes "testkey"))) :=
  c6_default_kid_is_testkey "iss" "sub" skTest none none none none
    "SHA-256" (-16) rfl

/-- C7: the Python default of `payload_hash_alg` is the string SHA-256, and
under that default the protected header maps key -6800 to -16. -/
theorem c7_default_alg_is_sha256 (issuer subject : String) (sk : SigningKey)
    (kid : Bytes) (mm : Option (List (String × String))) (p : Option Bytes)
    (pl pict : Option String) :
    PAYLOAD_HASH_ALG_DEFAULT = "SHA-256"
    ∧ Except.map (fun s => phdrAt s HEADER_LABEL_PAYLOAD_HASH_ALGORITHM)
        (create_hashed_signed_statement issuer sk subject kid mm p
          PAYLOAD_HASH_ALG_DEFAULT pl pict)
        = Except.ok (some (HVal.int (-16))) :=
  ⟨rfl, rfl⟩

/-- C8: statement construction is deterministic and, being modelled as a pure
function of its arguments alone, mutates no state outside the call: two calls
of `create_hashed_signed_statement` with identical arguments produce identical
results, in particular the identical protected header built before signing. -/
theorem c8_construction_deterministic (i i' subj subj' : String)
    (sk sk' : SigningKey) (kid kid' : Bytes)
    (mm mm' : Option (List (String × String))) (p p' : Option Bytes)
    (alg alg' : String) (pl pl' pict pict' : Option String)
    (h1 : i = i') (h2 : sk = sk') (h3 : subj = subj') (h4 : kid = kid')
    (h5 : mm = mm') (h6 : p = p') (h7 : alg = alg') (h8 : pl = pl')
    (h9 : pict = pict') :
    create_hashed_signed_statement i sk subj kid mm p alg pl pict
      = create_hashed_signed_statement i' sk' subj' kid' mm' p' alg' pl' pict' := by
  subst h1 h2 h3 h4 h5 h6 h7 h8 h9
  rfl

/-- Witness for C8 at a concrete pair of identical calls. -/
theorem c8_witness :
    create_hashed_signed_statement "iss" skTest "sub" KID_DEFAULT none none
      "SHA-256" none none
      = create_hashed_signed_statement "iss" skTest "sub" KID_DEFAULT none none
        "SHA-256" none none :=
  c8_construction_deterministic "iss" "iss" "sub" "sub" skTest skTest
    KID_DEFAULT KID_DEFAULT none none none none "SHA-256" "SHA-256"
    none none none none rfl rfl rfl rfl rfl rfl rfl rfl rfl

/-- C9: the function hashes nothing itself -- on every successful call the
bytes passed as the payload argument become the Sign1 payload verbatim (the
docstring's talk of hashing notwithstanding; `main` digests before calling). -/
theorem c9_payload_passed_verbatim (issuer subject : String) (sk : SigningKey)
    (kid : Bytes) (mm : Option (List (String × String))) (p : Option Bytes)
    (pl pict : Option String) (alg : String) (label : Int)
    (h : payload_hash_alg_match alg = some label) :
    Except.map Sign1Message.payload
      (create_hashed_signed_statement issuer sk subject kid mm p alg pl pict)
      = Except.ok p := by
  simp only [create_hashed_signed_statement, h]
  rfl

/-- Witness for C9 at a concrete payload. -/
theorem c9_witness :
    Except.map Sign1Message.payload
      (create_hashed_signed_statement "iss" skTest "sub" KID_DEFAULT none
        (some [104, 105]) "SHA-256" none none)
      = Except.ok (some [104, 105]) :=
  c9_payload_passed_verbatim "iss" "sub" skTest KID_DEFAULT none
    (some [104, 105]) none none "SHA-256" (-16) rfl

/-- C10: when `payload_location`, `pre_image_content_type` and `meta_map` are
left at their Python default of None, the protected header still contains the
labels -6801, -6802 and -6804, each mapped to null, rather than omitting them. -/
theorem c10_absent_optionals_mapped_to_null (issuer subject : String)
    (sk : SigningKey) (kid : Bytes) (p : Option Bytes) (alg : String)
    (label : Int) (h : payload_hash_alg_match alg = some label) :
    Except.map (fun s => (phdrAt s HEADER_LABEL_PAYLOAD_LOCATION,
        phdrAt s HEADER_LABEL_PAYLOAD_PRE_CONTENT_TYPE,
        phdrAt s HEADER_LABEL_META_MAP))
      (create_hashed_signed_statement issuer sk subject kid none p alg none none)
      = Except.ok (some HVal.null, some HVal.null, some HVal.null) := by
  simp only [create_hashed_signed_statement, h]
  rfl

/-- Witness for C10 at a concrete call. -/
theorem c10_witness :
    Except.map (fun s => (phdrAt s HEADER_LABEL_PAYLOAD_LOCATION,
        phdrAt s HEADER_LABEL_PAYLOAD_PRE_CONTENT_TYPE,
        phdrAt s HEADER_LABEL_META_MAP))
      (create_hashed_signed_statement "iss" skTest "sub" KID_DEFAULT none none
        "SHA-256" none none)
      = Except.ok (some HVal.null, some HVal.null, some HVal.null) :=
  c10_absent_optionals_mapped_to_null "iss" "sub" skTest KID_DEFAULT none
    "SHA-256" (-16) rfl
